import Mathlib

/-!
Shallow embedding of `lerobot/common/motors/feetech/feetech.py`: the module
level helpers (`convert_to_bytes`, `adjusted_to_homing_ticks`,
`adjusted_to_motor_ticks`, tick/degree conversion, `assert_same_address`,
`get_group_sync_key`) and the `FeetechMotorsBus` class (`read`, `write`,
`read_with_motor_ids`, `write_with_motor_ids`, `apply_calibration`,
`revert_calibration`, `disconnect`, `__del__`), together with theorems about
retry accounting, group-transaction caching, calibration normalization, the
byte codec, connection-state checks and cleanup.

Modelling conventions:
* Python ints are `Int`/`Nat`; Python floats are modelled as `Rat` (exact
  arithmetic; the float32 cast performed by `apply_calibration` is exact at
  every input considered here). Python `%` and `//`/`>>` on ints with a
  positive right operand coincide with `Int.emod` (`%`) and `Int.ediv` (`/`).
* Fallible code returns `Except Err`; each `Err` constructor names the Python
  exception class raised by the corresponding source line.
* The serial transport is an oracle `succ : Nat → Bool` giving the result of
  the i-th low-level packet exchange of the call (`txRxPacket`/`txPacket`
  returning `COMM_SUCCESS` or not), and `dev : Nat → Nat` gives the value
  `GroupSyncRead.getData` reports for a motor id. Timing logs, buffer flushes
  and the port/packet handler objects are not modelled.
* The `group_readers`/`group_writers` dict caches are modelled by their key
  sets (`List String`), which is all the cache-membership tests of the source
  observe; `read`/`write` additionally report whether they created a fresh
  group object on this call.
* A numpy array is modelled by its dtype (`isInt : Bool` — an integer array,
  as `np.array` produces when every list element is a Python int) together
  with its exact numeric contents. Assigning a float into an integer-dtyped
  array truncates it toward zero (C-style cast), which matters in
  `revert_calibration`; `apply_calibration` is unaffected because it runs
  `values.astype(np.float32)` first.
* Error precedence between independent failure modes of a single statement
  (for instance the lazily raised `ValueError` of `zip(..., strict=True)`
  against a `KeyError` of a dict access in the same loop) is modelled
  approximately; no theorem below depends on it.
-/

namespace Feetech

/-- Python exception kinds raised by the modelled code paths.
`jointOutOfRange` carries the motor name and the measured nominal value that
the source interpolates into the `JointOutOfRangeError` message. -/
inductive Err where
  | deviceNotConnected
  | deviceAlreadyConnected
  | connectionError
  | keyError
  | valueError
  | indexError
  | notImplementedError
  | nameError
  | typeError
  | jointOutOfRange (name : String) (value : Rat)
deriving DecidableEq, Repr

/-- Result of `convert_to_bytes`: the mock branch returns the value
unconverted, the real branch returns a little-endian byte list. -/
inductive ByteData where
  | raw (value : Int)
  | data (bytes : List Int)
deriving DecidableEq, Repr

/-- A Python number as it sits in a list handed to `np.array`: the element
type decides the array's dtype (int64 when every element is an int, float64
as soon as one is a float). -/
inductive PyNum where
  | int (n : Int)
  | float (q : Rat)
deriving DecidableEq, Repr

/-- Numeric value of a `PyNum`. -/
def PyNum.val : PyNum → Rat
  | .int n => (n : Rat)
  | .float q => q

/-- Whether a `PyNum` is a Python int (contributes an integer dtype). -/
def PyNum.isInt : PyNum → Bool
  | .int _ => true
  | .float _ => false

/-- The calibration dict consumed by `apply_calibration` /
`revert_calibration` / the homing-tick helpers (keys `motor_names`,
`calib_mode`, `drive_mode`, `start_pos`, `end_pos`). -/
structure Calibration where
  motor_names : List String
  calib_mode : List String
  drive_mode : List Int
  start_pos : List Rat
  end_pos : List Rat
deriving DecidableEq, Repr

/-- State of a `FeetechMotorsBus` instance: constructor arguments `port`,
`motors` (an insertion-ordered dict name ↦ (id, model)) and `mock`, plus the
mutable fields set in `__init__` and updated by `connect`/`disconnect` and
the cached group transactions (modelled by their key sets). -/
structure Bus where
  port : String
  motors : List (String × Nat × String)
  mock : Bool
  calibration : Option Calibration
  is_connected : Bool
  group_readers : List String
  group_writers : List String
deriving DecidableEq, Repr

/-- Property `motor_names`: the keys of the `motors` dict, in order. -/
def Bus.motor_names (s : Bus) : List String :=
  s.motors.map Prod.fst

/-- Property `motor_models`: the model of each motor, in order. -/
def Bus.motor_models (s : Bus) : List String :=
  s.motors.map (fun m => m.snd.snd)

/-- Property `motor_indices`: the id of each motor, in order. -/
def Bus.motor_indices (s : Bus) : List Nat :=
  s.motors.map (fun m => m.snd.fst)

/-- `SCS_SERIES_CONTROL_TABLE`: register name ↦ (address, byte size). -/
def SCS_SERIES_CONTROL_TABLE : List (String × Nat × Nat) :=
  [("Model", 3, 2),
   ("ID", 5, 1),
   ("Baud_Rate", 6, 1),
   ("Return_Delay", 7, 1),
   ("Response_Status_Level", 8, 1),
   ("Min_Angle_Limit", 9, 2),
   ("Max_Angle_Limit", 11, 2),
   ("Max_Temperature_Limit", 13, 1),
   ("Max_Voltage_Limit", 14, 1),
   ("Min_Voltage_Limit", 15, 1),
   ("Max_Torque_Limit", 16, 2),
   ("Phase", 18, 1),
   ("Unloading_Condition", 19, 1),
   ("LED_Alarm_Condition", 20, 1),
   ("P_Coefficient", 21, 1),
   ("D_Coefficient", 22, 1),
   ("I_Coefficient", 23, 1),
   ("Minimum_Startup_Force", 24, 2),
   ("CW_Dead_Zone", 26, 1),
   ("CCW_Dead_Zone", 27, 1),
   ("Protection_Current", 28, 2),
   ("Angular_Resolution", 30, 1),
   ("Offset", 31, 2),
   ("Mode", 33, 1),
   ("Protective_Torque", 34, 1),
   ("Protection_Time", 35, 1),
   ("Overload_Torque", 36, 1),
   ("Speed_closed_loop_P_proportional_coefficient", 37, 1),
   ("Over_Current_Protection_Time", 38, 1),
   ("Velocity_closed_loop_I_integral_coefficient", 39, 1),
   ("Torque_Enable", 40, 1),
   ("Acceleration", 41, 1),
   ("Goal_Position", 42, 2),
   ("Goal_Time", 44, 2),
   ("Goal_Speed", 46, 2),
   ("Torque_Limit", 48, 2),
   ("Lock", 55, 1),
   ("Present_Position", 56, 2),
   ("Present_Speed", 58, 2),
   ("Present_Load", 60, 2),
   ("Present_Voltage", 62, 1),
   ("Present_Temperature", 63, 1),
   ("Status", 65, 1),
   ("Moving", 66, 1),
   ("Present_Current", 69, 2),
   ("Maximum_Acceleration", 85, 2)]

/-- `MODEL_CONTROL_TABLE`; both models share the SCS series table. -/
def MODEL_CONTROL_TABLE : List (String × List (String × Nat × Nat)) :=
  [("scs_series", SCS_SERIES_CONTROL_TABLE),
   ("sts3215", SCS_SERIES_CONTROL_TABLE)]

/-- `MODEL_RESOLUTION`. -/
def MODEL_RESOLUTION : List (String × Nat) :=
  [("scs_series", 4096),
   ("sts3215", 4096)]

/-- `CALIBRATION_REQUIRED`. -/
def CALIBRATION_REQUIRED : List String :=
  ["Goal_Position", "Present_Position"]

/-- `NUM_READ_RETRY`. -/
def NUM_READ_RETRY : Nat := 20

/-- `NUM_WRITE_RETRY`. -/
def NUM_WRITE_RETRY : Nat := 20

/-- `LOWER_BOUND_LINEAR`. -/
def LOWER_BOUND_LINEAR : Rat := -10

/-- `UPPER_BOUND_LINEAR`. -/
def UPPER_BOUND_LINEAR : Rat := 110

/-- Dict lookup `d[k]` on an association list (dict keys are unique, so the
first match is the entry). -/
def dictLookup (k : String) : List (String × α) → Option α
  | [] => none
  | (key, v) :: rest => if key = k then some v else dictLookup k rest

/-- Membership test `k in d` on a dict key set / list of strings. -/
def keyIn (k : String) : List String → Bool
  | [] => false
  | x :: rest => if x = k then true else keyIn k rest

/-- `self.model_ctrl_table[model][data_name]`: `none` when either dict access
would raise `KeyError`. -/
def ctrlLookup (model data_name : String) : Option (Nat × Nat) :=
  (dictLookup model MODEL_CONTROL_TABLE).bind fun t => dictLookup data_name t

/-- Python `%` (used by the tick-wrapping code on ints and floats): result of
`a - b * floor(a / b)`, which for a positive `b` lands in `[0, b)`. -/
def pymod (a b : Rat) : Rat := a - b * (⌊a / b⌋ : Int)

/-- Python `int(...)` on a float: truncation toward zero. -/
def pyInt (q : Rat) : Int := if 0 ≤ q then ⌊q⌋ else ⌈q⌉

/-- `np.round`: round half to even (banker's rounding). -/
def npRound (q : Rat) : Int :=
  if q - (⌊q⌋ : Int) < 1 / 2 then ⌊q⌋
  else if q - (⌊q⌋ : Int) > 1 / 2 then ⌊q⌋ + 1
  else if ⌊q⌋ % 2 = 0 then ⌊q⌋ else ⌊q⌋ + 1

/-- Conversion performed implicitly when a value reaches the `&` of the SCS
byte helpers: a whole-number float is used as its integer value, a fractional
float raises `TypeError`. -/
def toPyInt (q : Rat) : Except Err Int :=
  if q.den = 1 then .ok q.num else .error .typeError

/-- Byte helper of the scservo sdk: `SCS_LOWORD(l) = l & 0xFFFF`. -/
def SCS_LOWORD (l : Int) : Int := l % 65536

/-- Byte helper of the scservo sdk: `SCS_HIWORD(l) = (l >> 16) & 0xFFFF`. -/
def SCS_HIWORD (l : Int) : Int := (l / 65536) % 65536

/-- Byte helper of the scservo sdk: `SCS_LOBYTE(w) = w & 0xFF`. -/
def SCS_LOBYTE (w : Int) : Int := w % 256

/-- Byte helper of the scservo sdk: `SCS_HIBYTE(w) = (w >> 8) & 0xFF`. -/
def SCS_HIBYTE (w : Int) : Int := (w / 256) % 256

/-- `convert_to_bytes(value, bytes, mock)`: mock passes the value through;
otherwise 1/2/4 little-endian bytes via the SCS byte helpers (which mask, as
the source comment notes, so no sign or range check happens here), and any
other width raises `NotImplementedError`. -/
def convert_to_bytes (value : Int) (bytes : Nat) (mock : Bool) : Except Err ByteData :=
  if mock then .ok (.raw value)
  else if bytes = 1 then
    .ok (.data [SCS_LOBYTE (SCS_LOWORD value)])
  else if bytes = 2 then
    .ok (.data [SCS_LOBYTE (SCS_LOWORD value), SCS_HIBYTE (SCS_LOWORD value)])
  else if bytes = 4 then
    .ok (.data [SCS_LOBYTE (SCS_LOWORD value), SCS_HIBYTE (SCS_LOWORD value),
                SCS_LOBYTE (SCS_HIWORD value), SCS_HIBYTE (SCS_HIWORD value)])
  else .error .notImplementedError

/-- `get_group_sync_key(data_name, motor_names)`. -/
def get_group_sync_key (data_name : String) (motor_names : List String) : String :=
  data_name ++ "_" ++ String.intercalate "_" motor_names

/-- Assignment `d[k] = v` observed on the key set of a dict: the key is
appended if absent (dict keys keep insertion order). -/
def insertKey (ks : List String) (k : String) : List String :=
  if keyIn k ks then ks else ks ++ [k]

/-- `zip(xs, ys, strict=True)`: `ValueError` on a length mismatch. -/
def zipStrict : List α → List β → Except Err (List (α × β))
  | [], [] => .ok []
  | a :: as, b :: bs =>
    match zipStrict as bs with
    | .error e => .error e
    | .ok rest => .ok ((a, b) :: rest)
  | _, _ => .error .valueError

/-- `list.index(x)`: first index of `x`, `ValueError` when absent. -/
def listIndex (x : String) : List String → Except Err Nat
  | [] => .error .valueError
  | y :: ys =>
    if y = x then .ok 0
    else
      match listIndex x ys with
      | .error e => .error e
      | .ok i => .ok (i + 1)

/-- The collection loop of `assert_same_address`: the `(addr, bytes)` pair of
`data_name` for every model, `KeyError` when a lookup fails. -/
def lookupAll (motor_models : List String) (data_name : String) :
    Except Err (List (Nat × Nat)) :=
  match motor_models with
  | [] => .ok []
  | m :: ms =>
    match ctrlLookup m data_name with
    | none => .error .keyError
    | some ab =>
      match lookupAll ms data_name with
      | .error e => .error e
      | .ok rest => .ok (ab :: rest)

/-- `assert_same_address(model_ctrl_table, motor_models, data_name)`: raises
`NotImplementedError` unless the addresses, and then the byte widths, of all
the models form exactly one distinct value. -/
def assert_same_address (motor_models : List String) (data_name : String) :
    Except Err Unit :=
  match lookupAll motor_models data_name with
  | .error e => .error e
  | .ok pairs =>
    if (pairs.map Prod.fst).eraseDups.length ≠ 1 then .error .notImplementedError
    else if (pairs.map Prod.snd).eraseDups.length ≠ 1 then .error .notImplementedError
    else .ok ()

/-- The drive-mode fetch shared by `adjusted_to_homing_ticks` and
`adjusted_to_motor_ticks`: 0 when no calibration is set, else
`calibration["drive_mode"][motor_id - 1]` (motor ids are 1-based). -/
def driveModeOf (s : Bus) (motor_id : Nat) : Except Err Int :=
  match s.calibration with
  | none => .ok 0
  | some cal =>
    match cal.drive_mode.get? (motor_id - 1) with
    | some d => .ok d
    | none => .error .indexError

/-- `convert_ticks_to_degrees(ticks, model)`: `ticks * (360 / resolution)`. -/
def convert_ticks_to_degrees (ticks : Rat) (model : String) : Except Err Rat :=
  match dictLookup model MODEL_RESOLUTION with
  | none => .error .keyError
  | some r => .ok (ticks * (360 / (r : Rat)))

/-- `convert_degrees_to_ticks(degrees, model)`: `int(degrees * (resolution / 360))`. -/
def convert_degrees_to_ticks (degrees : Rat) (model : String) : Except Err Int :=
  match dictLookup model MODEL_RESOLUTION with
  | none => .error .keyError
  | some r => .ok (pyInt (degrees * ((r : Rat) / 360)))

/-- `adjusted_to_homing_ticks(raw_motor_ticks, model, motorbus, motor_id)`:
shift by half the resolution, wrap with `%`, fold the upper half into
negative territory, then flip the sign when drive mode is set. The argument
is annotated `int` in the source but receives the float32 array entry when
called from `apply_calibration`, so it is modelled on `Rat`. -/
def adjusted_to_homing_ticks (raw_motor_ticks : Rat) (model : String) (s : Bus)
    (motor_id : Nat) : Except Err Rat :=
  match dictLookup model MODEL_RESOLUTION with
  | none => .error .keyError
  | some resolutions =>
    let ticks := pymod (raw_motor_ticks - ((resolutions / 2 : Nat) : Rat)) (resolutions : Rat)
    let ticks := if ticks > ((resolutions / 2 : Nat) : Rat) then ticks - (resolutions : Rat) else ticks
    match driveModeOf s motor_id with
    | .error e => .error e
    | .ok drive_mode => .ok (if drive_mode ≠ 0 then -ticks else ticks)

/-- `adjusted_to_motor_ticks(adjusted_pos, model, motorbus, motor_id)`:
inverse shift — flip sign on drive mode, add half the resolution, wrap. -/
def adjusted_to_motor_ticks (adjusted_pos : Int) (model : String) (s : Bus)
    (motor_id : Nat) : Except Err Int :=
  match driveModeOf s motor_id with
  | .error e => .error e
  | .ok drive_mode =>
    let pos := if drive_mode ≠ 0 then -adjusted_pos else adjusted_pos
    match dictLookup model MODEL_RESOLUTION with
    | none => .error .keyError
    | some resolutions =>
      .ok ((pos + ((resolutions / 2 : Nat) : Int)) % (resolutions : Int))

/-- One iteration of the `apply_calibration` loop for motor `name` and array
entry `v`: look up the motor's calibration row and dispatch on its mode
(`CalibrationMode[calib_mode]` raises `KeyError` on any other string). -/
def applyOne (s : Bus) (cal : Calibration) (name : String) (v : Rat) : Except Err Rat :=
  match listIndex name cal.motor_names with
  | .error e => .error e
  | .ok calib_idx =>
    match cal.calib_mode.get? calib_idx with
    | none => .error .indexError
    | some calib_mode =>
      if calib_mode = "DEGREE" then
        match dictLookup name s.motors with
        | none => .error .keyError
        | some im =>
          match adjusted_to_homing_ticks v im.snd s im.fst with
          | .error e => .error e
          | .ok t => convert_ticks_to_degrees t im.snd
      else if calib_mode = "LINEAR" then
        match cal.start_pos.get? calib_idx, cal.end_pos.get? calib_idx with
        | some start_pos, some end_pos =>
          let v := (v - start_pos) / (end_pos - start_pos) * 100
          if v < LOWER_BOUND_LINEAR ∨ v > UPPER_BOUND_LINEAR then
            .error (.jointOutOfRange name v)
          else .ok v
        | _, _ => .error .indexError
      else .error .keyError

/-- The `for i, name in enumerate(motor_names)` loop of `apply_calibration`:
entry `i` is rewritten per motor, entries beyond the motor list pass through,
and a motor list longer than the array raises `IndexError`. -/
def applyList (s : Bus) (cal : Calibration) : List String → List Rat → Except Err (List Rat)
  | [], vs => .ok vs
  | _ :: _, [] => .error .indexError
  | n :: ns, v :: vs =>
    match applyOne s cal n v with
    | .error e => .error e
    | .ok v2 =>
      match applyList s cal ns vs with
      | .error e => .error e
      | .ok rest => .ok (v2 :: rest)

/-- `apply_calibration(values, motor_names)`: raw ticks to normalized units.
The method starts with `values = values.astype(np.float32)`, so the loop
always stores into a float array and no integer truncation occurs here (the
dtype of the incoming array is irrelevant). Accessing
`self.calibration["motor_names"]` with no calibration set raises
`TypeError`. -/
def apply_calibration (s : Bus) (values : List Rat)
    (motor_names? : Option (List String)) : Except Err (List Rat) :=
  let motor_names := motor_names?.getD s.motor_names
  match s.calibration with
  | none => .error .typeError
  | some cal => applyList s cal motor_names values

/-- The effect of the assignment `values[i] = q` on an array of the given
dtype: storing into an integer-dtyped array casts C-style, truncating a
float toward zero; a float array stores the value exactly. -/
def storeCast (isInt : Bool) (q : Rat) : Rat :=
  if isInt then ((pyInt q : Int) : Rat) else q

/-- One iteration of the `revert_calibration` loop (over an array of dtype
`isInt`). Unlike `apply_calibration` there is no prior `astype` cast, so the
LINEAR-branch assignment `values[i] = v / 100 * (end - start) + start` goes
through `storeCast` and truncates in an integer array; the DEGREE branch only
ever stores whole numbers, for which the cast is the identity. -/
def revertOne (s : Bus) (cal : Calibration) (isInt : Bool) (name : String) (v : Rat) :
    Except Err Rat :=
  match listIndex name cal.motor_names with
  | .error e => .error e
  | .ok calib_idx =>
    match cal.calib_mode.get? calib_idx with
    | none => .error .indexError
    | some calib_mode =>
      if calib_mode = "DEGREE" then
        match dictLookup name s.motors with
        | none => .error .keyError
        | some im =>
          match convert_degrees_to_ticks v im.snd with
          | .error e => .error e
          | .ok t =>
            match adjusted_to_motor_ticks t im.snd s im.fst with
            | .error e => .error e
            | .ok t2 => .ok (storeCast isInt (t2 : Rat))
      else if calib_mode = "LINEAR" then
        match cal.start_pos.get? calib_idx, cal.end_pos.get? calib_idx with
        | some start_pos, some end_pos =>
          .ok (storeCast isInt (v / 100 * (end_pos - start_pos) + start_pos))
        | _, _ => .error .indexError
      else .error .keyError

/-- The per-motor loop of `revert_calibration`, same zip semantics as
`applyList`. -/
def revertList (s : Bus) (cal : Calibration) (isInt : Bool) :
    List String → List Rat → Except Err (List Rat)
  | [], vs => .ok vs
  | _ :: _, [] => .error .indexError
  | n :: ns, v :: vs =>
    match revertOne s cal isInt n v with
    | .error e => .error e
    | .ok v2 =>
      match revertList s cal isInt ns vs with
      | .error e => .error e
      | .ok rest => .ok (v2 :: rest)

/-- `revert_calibration(values, motor_names)`: normalized units back to raw
ticks. The numpy array argument is modelled as its dtype flag `isInt` plus
its numeric contents. After the loop the whole array goes through
`np.round(...).astype(np.int32)`; on an integer array (whose entries are
already whole, every store having truncated) `np.round` is the identity, so
the half-to-even rounding only ever applies to float arrays. -/
def revert_calibration (s : Bus) (isInt : Bool) (values : List Rat)
    (motor_names? : Option (List String)) : Except Err (List Rat) :=
  let motor_names := motor_names?.getD s.motor_names
  match s.calibration with
  | none => .error .typeError
  | some cal =>
    match revertList s cal isInt motor_names values with
    | .error e => .error e
    | .ok vs => .ok (vs.map fun q => if isInt then q else ((npRound q : Int) : Rat))

/-- The motor-name resolution loop shared by `read` and `write`
(`motor_idx, model = self.motors[name]`, raising `KeyError` on an unknown
name). -/
def resolveMotors (motors : List (String × Nat × String)) :
    List String → Except Err (List (Nat × String))
  | [] => .ok []
  | n :: ns =>
    match dictLookup n motors with
    | none => .error .keyError
    | some im =>
      match resolveMotors motors ns with
      | .error e => .error e
      | .ok rest => .ok (im :: rest)

/-- The retry loop `for _ in range(n): comm = tx(); if comm == COMM_SUCCESS:
break`, started at exchange index `i` with `n` iterations left. Returns the
number of exchanges performed and the final value of `comm` (`none` when the
body never ran and `comm` stays unbound, a `NameError` at the check that
follows the loop). -/
def retryTx (succ : Nat → Bool) (i : Nat) : Nat → Nat × Option Bool
  | 0 => (0, none)
  | 1 => if succ i then (1, some true) else (1, some false)
  | n + 2 =>
    if succ i then (1, some true)
    else
      let r := retryTx succ (i + 1) (n + 1)
      (r.fst + 1, r.snd)

/-- The parameter-building loop of the write paths: `convert_to_bytes` per
(id, value) pair. -/
def buildParams (mock : Bool) (width : Nat) :
    List (Nat × Int) → Except Err (List (Nat × ByteData))
  | [] => .ok []
  | (idx, v) :: rest =>
    match convert_to_bytes v width mock with
    | .error e => .error e
    | .ok d =>
      match buildParams mock width rest with
      | .error e => .error e
      | .ok tail => .ok ((idx, d) :: tail)

/-- Conversion of the `values.tolist()` entries fed to `convert_to_bytes` by
`FeetechMotorsBus.write` (after `revert_calibration` they are whole numbers;
without calibration they are whatever the caller passed). -/
def ratParams : List (Nat × Rat) → Except Err (List (Nat × Int))
  | [] => .ok []
  | (idx, q) :: rest =>
    match toPyInt q with
    | .error e => .error e
    | .ok v =>
      match ratParams rest with
      | .error e => .error e
      | .ok tail => .ok ((idx, v) :: tail)

/-- `FeetechMotorsBus.read_with_motor_ids(motor_models, motor_ids, data_name,
num_retry)` for a list of ids. Note the source performs no `is_connected`
check here, and its `assert_same_address` call uses `self.motor_models`, not
the `motor_models` argument. Returns the number of `txRxPacket` invocations
together with the outcome. -/
def read_with_motor_ids (s : Bus) (succ : Nat → Bool) (dev : Nat → Nat)
    (motor_models : List String) (motor_ids : List Nat) (data_name : String)
    (num_retry : Nat) : Nat × Except Err (List Nat) :=
  match assert_same_address s.motor_models data_name with
  | .error e => (0, .error e)
  | .ok _ =>
    match motor_models.head? with
    | none => (0, .error .indexError)
    | some m0 =>
      match ctrlLookup m0 data_name with
      | none => (0, .error .keyError)
      | some _ab =>
        let r := retryTx succ 0 num_retry
        match r.snd with
        | none => (r.fst, .error .nameError)
        | some true => (r.fst, .ok (motor_ids.map dev))
        | some false => (r.fst, .error .connectionError)

/-- `FeetechMotorsBus.write_with_motor_ids(motor_models, motor_ids, data_name,
values, num_retry)` for lists of ids and values. No `is_connected` check in
the source. Returns the number of `txPacket` invocations with the outcome. -/
def write_with_motor_ids (s : Bus) (succ : Nat → Bool)
    (motor_models : List String) (motor_ids : List Nat) (data_name : String)
    (values : List Int) (num_retry : Nat) : Nat × Except Err Unit :=
  match assert_same_address motor_models data_name with
  | .error e => (0, .error e)
  | .ok _ =>
    match motor_models.head? with
    | none => (0, .error .indexError)
    | some m0 =>
      match ctrlLookup m0 data_name with
      | none => (0, .error .keyError)
      | some ab =>
        match zipStrict motor_ids values with
        | .error e => (0, .error e)
        | .ok pairs =>
          match buildParams s.mock ab.snd pairs with
          | .error e => (0, .error e)
          | .ok _params =>
            let r := retryTx succ 0 num_retry
            match r.snd with
            | none => (r.fst, .error .nameError)
            | some true => (r.fst, .ok ())
            | some false => (r.fst, .error .connectionError)

/-- What `FeetechMotorsBus.read` produces: the returned values, the updated
bus state, whether this call created a fresh `GroupSyncRead` object, and how
many `txRxPacket` invocations it made. -/
structure ReadOut where
  values : List Rat
  bus : Bus
  builtNewReader : Bool
  invocations : Nat
deriving DecidableEq, Repr

/-- `FeetechMotorsBus.read(data_name, motor_names)`: connection check, name
resolution, `assert_same_address`, control-table lookup (with the last
resolved model), conditional creation of the group reader — the source tests
`data_name not in self.group_readers` but stores under the group key — the
`NUM_READ_RETRY` loop, data collection, and calibration when required and
set. -/
def read (s : Bus) (succ : Nat → Bool) (dev : Nat → Nat) (data_name : String)
    (motor_names? : Option (List String)) : Except Err ReadOut :=
  if !s.is_connected then .error .deviceNotConnected
  else
    let motor_names := motor_names?.getD s.motor_names
    match resolveMotors s.motors motor_names with
    | .error e => .error e
    | .ok idmodels =>
      let motor_ids := idmodels.map Prod.fst
      let models := idmodels.map Prod.snd
      match assert_same_address models data_name with
      | .error e => .error e
      | .ok _ =>
        match models.getLast? with
        | none => .error .nameError
        | some model =>
          match ctrlLookup model data_name with
          | none => .error .keyError
          | some _ab =>
            let group_key := get_group_sync_key data_name motor_names
            let builtNew := !(keyIn data_name s.group_readers)
            let s2 := if builtNew then
                { s with group_readers := insertKey s.group_readers group_key }
              else s
            if !builtNew && !(keyIn group_key s.group_readers) then
              -- `self.group_readers[group_key]` raises `KeyError` in the loop
              .error .keyError
            else
              let r := retryTx succ 0 NUM_READ_RETRY
              match r.snd with
              | none => .error .nameError
              | some false => .error .connectionError
              | some true =>
                let values : List Rat := motor_ids.map fun idx => ((dev idx : Nat) : Rat)
                match (if keyIn data_name CALIBRATION_REQUIRED && s2.calibration.isSome
                       then apply_calibration s2 values (some motor_names)
                       else .ok values) with
                | .error e => .error e
                | .ok values2 =>
                  .ok { values := values2, bus := s2, builtNewReader := builtNew,
                        invocations := r.fst }

/-- Input accepted by `FeetechMotorsBus.write`: a scalar (int, float or
`np.integer` — always broadcast through `int(...)`, so the resulting list
holds Python ints) or a list of values whose element types decide the
array's dtype. -/
inductive WriteInput where
  | scalar (v : Rat)
  | list (vs : List PyNum)
deriving DecidableEq, Repr

/-- What `FeetechMotorsBus.write` produces: the updated bus state, the values
written after the optional `revert_calibration` (the `values.tolist()` the
source feeds to the wire), the per-id byte payloads handed to the group
writer, and whether this call created a fresh `GroupSyncWrite` object. -/
structure WriteOut where
  bus : Bus
  values : List Rat
  params : List (Nat × ByteData)
  initGroup : Bool
deriving DecidableEq, Repr

/-- `FeetechMotorsBus.write(data_name, values, motor_names)`: connection
check, scalar broadcast (`[int(values)] * len(motor_names)` — a list of
Python ints, so `np.array` gives an integer array), name resolution,
`revert_calibration` when required and set (receiving the array's dtype),
`assert_same_address`, control-table lookup, conditional creation of the
group writer — the source tests `data_name not in self.group_readers` (the
reader cache) here — byte conversion per id, and a single `txPacket` (no
retry loop in this method). -/
def write (s : Bus) (succ : Nat → Bool) (data_name : String) (values : WriteInput)
    (motor_names? : Option (List String)) : Except Err WriteOut :=
  if !s.is_connected then .error .deviceNotConnected
  else
    let motor_names := motor_names?.getD s.motor_names
    let values : List PyNum :=
      match values with
      | .scalar v => List.replicate motor_names.length (.int (pyInt v))
      | .list vs => vs
    -- `values = np.array(values)`: integer dtype iff every element is an int
    let isInt := values.all PyNum.isInt
    let vals : List Rat := values.map PyNum.val
    match resolveMotors s.motors motor_names with
    | .error e => .error e
    | .ok idmodels =>
      let motor_ids := idmodels.map Prod.fst
      let models := idmodels.map Prod.snd
      match (if keyIn data_name CALIBRATION_REQUIRED && s.calibration.isSome
             then revert_calibration s isInt vals (some motor_names)
             else .ok vals) with
      | .error e => .error e
      | .ok values2 =>
        match assert_same_address models data_name with
        | .error e => .error e
        | .ok _ =>
          match models.getLast? with
          | none => .error .nameError
          | some model =>
            match ctrlLookup model data_name with
            | none => .error .keyError
            | some ab =>
              let group_key := get_group_sync_key data_name motor_names
              let init_group := !(keyIn data_name s.group_readers)
              let s2 := if init_group then
                  { s with group_writers := insertKey s.group_writers group_key }
                else s
              if !init_group && !(keyIn group_key s.group_writers) then
                -- `changeParam`/`txPacket` on `self.group_writers[group_key]`
                -- raises `KeyError` when the key is absent
                .error .keyError
              else
                match zipStrict motor_ids values2 with
                | .error e => .error e
                | .ok pairs =>
                  match ratParams pairs with
                  | .error e => .error e
                  | .ok ipairs =>
                    match buildParams s.mock ab.snd ipairs with
                    | .error e => .error e
                    | .ok params =>
                      if succ 0 then
                        .ok { bus := s2, values := values2, params := params,
                              initGroup := init_group }
                      else .error .connectionError

/-- `FeetechMotorsBus.disconnect()`: `DeviceNotConnectedError` when not
connected, otherwise release the handlers, clear both group caches and clear
the flag. -/
def disconnect (s : Bus) : Except Err Bus :=
  if !s.is_connected then .error .deviceNotConnected
  else .ok { s with group_readers := [], group_writers := [], is_connected := false }

/-- `FeetechMotorsBus.__del__`: `if getattr(self, "is_connected", False):
self.disconnect()` (the `getattr` default also covers an instance whose
`__init__` never ran, which the `Bus` type cannot represent). -/
def del (s : Bus) : Except Err Bus :=
  if s.is_connected then disconnect s else .ok s

/-- A transport oracle whose every exchange succeeds. -/
def succAlways : Nat → Bool := fun _ => true

/-- A transport oracle that fails the first exchange and succeeds from the
second on. -/
def failFirstThenSucceed : Nat → Bool := fun i => decide (1 ≤ i)

/-- A connected single-motor bus (motor "m1", id 1, model sts3215) with no
calibration, as produced by `connect()` right after `__init__`. -/
def demoBus : Bus :=
  { port := "/dev/ttyUSB0", motors := [("m1", (1, "sts3215"))], mock := false,
    calibration := none, is_connected := true, group_readers := [], group_writers := [] }

/-- The same bus, not connected. -/
def demoBusDisconnected : Bus := { demoBus with is_connected := false }

/-- The demo bus with a DEGREE-mode calibration for "m1" (drive_mode 0). -/
def degBus : Bus :=
  { demoBus with
    calibration := some { motor_names := ["m1"], calib_mode := ["DEGREE"],
                          drive_mode := [0], start_pos := [0], end_pos := [0] } }

/-- A connected bus with one LINEAR-mode motor and the given calibration
range. -/
def linBus (name : String) (id : Nat) (startp endp : Rat) : Bus :=
  { port := "/dev/ttyUSB0", motors := [(name, (id, "sts3215"))], mock := false,
    calibration := some { motor_names := [name], calib_mode := ["LINEAR"],
                          drive_mode := [0], start_pos := [startp], end_pos := [endp] },
    is_connected := true, group_readers := [], group_writers := [] }

/-- The end-to-end scenario bus: motor "gripper" (id 6, sts3215) with LINEAR
calibration over the full range `[0, 4095]`. -/
def gripperBus : Bus := linBus "gripper" 6 0 4095

/-- Closed evaluation facts about the control table and transport loop used
by several proofs below. -/
theorem retryTx_always_twenty : retryTx succAlways 0 NUM_READ_RETRY = (1, some true) := rfl

/-- Helper: the revert of the normalized value 50 over the LINEAR range
`[0, 4095]` on an integer-dtyped array: `50 / 100 * 4095 = 2047.5`, the store
into the int64 array truncates it to `2047`, and the subsequent `np.round`
is the identity on the integer array. -/
theorem gripper_revert_eval :
    revert_calibration gripperBus true [50] (some ["gripper"]) = .ok [2047] := by
  have h50 : (50 : Rat) / 100 * (4095 - 0) + 0 = 4095 / 2 := by norm_num
  have hst : storeCast true (4095 / 2) = 2047 := by
    rw [storeCast, pyInt]
    norm_num
  norm_num +decide [revert_calibration, gripperBus, linBus, revertList, revertOne,
    listIndex, dictLookup, h50, hst]

/-- C1. The claim says that with `num_retry = N` and a transport failing its
first `K ≤ N` exchanges, `read_with_motor_ids` / `write_with_motor_ids`
succeed after exactly `K+1` exchanges (and fail after `N+1` when `K > N`).
The loop `for _ in range(num_retry)` makes at most `num_retry` exchanges in
total, so at `N = 1` and `K = 1` (first exchange fails, second would
succeed) both methods raise `ConnectionError` after exactly one exchange
instead of succeeding after two. -/
theorem retry_accounting_code_eval :
    read_with_motor_ids demoBus failFirstThenSucceed (fun _ => 42) ["sts3215"] [1]
      "Present_Position" 1 = (1, .error .connectionError) ∧
    write_with_motor_ids demoBus failFirstThenSucceed ["sts3215"] [1]
      "Present_Position" [42] 1 = (1, .error .connectionError) :=
  ⟨rfl, rfl⟩

/-- C2. The claim says a second `read` (resp. `write`) with the same register
and motor set reuses the cached group object without rebuilding it. The
source tests `data_name not in self.group_readers` while the cache keys are
group keys of the form `f"{data_name}_" + "_".join(motor_names)`, so the
test never hits: the first `read("ID", ["m1"])` stores key `"ID_m1"` and
builds a fresh reader, and the second call on the resulting bus builds a
fresh reader again (`builtNewReader = true`); a `write` whose group key is
already cached likewise re-initializes (`initGroup = true`). -/
theorem group_cache_code_eval :
    (read demoBus succAlways (fun _ => 42) "ID" (some ["m1"])).map
        (fun r => (r.builtNewReader, r.bus.group_readers)) = .ok (true, ["ID_m1"]) ∧
    (read { demoBus with group_readers := ["ID_m1"] } succAlways (fun _ => 42) "ID"
        (some ["m1"])).map
        (fun r => (r.builtNewReader, r.bus.group_readers)) = .ok (true, ["ID_m1"]) ∧
    (write { demoBus with group_writers := ["Torque_Enable_m1"] } succAlways
        "Torque_Enable" (.list [.int 1]) (some ["m1"])).map
        (fun r => r.initGroup) = .ok true := by
  refine ⟨rfl, rfl, ?_⟩
  norm_num +decide [write, Except.map, demoBus, resolveMotors, keyIn,
    CALIBRATION_REQUIRED, insertKey, succAlways, dictLookup, zipStrict, ratParams,
    toPyInt, buildParams, convert_to_bytes, PyNum.val, PyNum.isInt, List.all,
    show assert_same_address ["sts3215"] "Torque_Enable" = Except.ok () from rfl,
    show ctrlLookup "sts3215" "Torque_Enable" = some (40, 1) from rfl]

/-- C3. The claim says the degree-mode shift wraps a raw tick of resolution
4096 into `[-2048, 2047]`. At raw tick 0 (drive_mode 0) the code computes
`(0 - 2048) % 4096 = 2048`, and `2048 > 2048` is false, so the wrapped tick
is `+2048`, outside the claimed interval (the attained range is
`[-2047, 2048]`); `apply_calibration` then scales it to `2048 * 360 / 4096 =
180` degrees. -/
theorem degree_wrap_code_eval :
    adjusted_to_homing_ticks 0 "sts3215" degBus 1 = .ok 2048 ∧
    apply_calibration degBus [0] (some ["m1"]) = .ok [180] ∧
    ¬ ((2048 : Rat) ≤ 2047) := by
  refine ⟨?_, ?_, by norm_num⟩
  · norm_num +decide [adjusted_to_homing_ticks, degBus, demoBus, MODEL_RESOLUTION,
      pymod, driveModeOf, dictLookup]
  · norm_num +decide [apply_calibration, degBus, demoBus, applyList, applyOne,
      listIndex, adjusted_to_homing_ticks, convert_ticks_to_degrees, MODEL_RESOLUTION,
      pymod, driveModeOf, dictLookup]

/-- C4 counterexample. The claim says a read of a calibration-required
register on a bus with no calibration set fails with an uncalibrated error;
in fact the read succeeds and returns the raw device tick unchanged. -/
theorem uncalibrated_read_counterexample :
    (read demoBus succAlways (fun _ => 1337) "Present_Position" (some ["m1"])).map
      ReadOut.values = .ok [((1337 : Nat) : Rat)] := rfl

/-- C4 amended: on a connected bus whose calibration is not set, a read of a
calibration-required register succeeds and returns the raw tick values
unchanged, and a write sends the given values without reverting; no error is
raised. -/
theorem uncalibrated_passthrough (port name : String) (id : Nat) (dev : Nat → Nat)
    (gw : List String) (v : Int) (data_name : String)
    (h : data_name ∈ CALIBRATION_REQUIRED) :
    (read { port := port, motors := [(name, (id, "sts3215"))], mock := false,
            calibration := none, is_connected := true, group_readers := [],
            group_writers := gw } succAlways dev data_name (some [name])).map ReadOut.values
        = .ok [((dev id : Nat) : Rat)] ∧
    (write { port := port, motors := [(name, (id, "sts3215"))], mock := false,
             calibration := none, is_connected := true, group_readers := [],
             group_writers := gw } succAlways data_name (.list [.int v])
        (some [name])).map WriteOut.values
        = .ok [(v : Rat)] := by
  simp only [CALIBRATION_REQUIRED, List.mem_cons, List.mem_singleton,
    List.not_mem_nil, or_false] at h
  rcases h with rfl | rfl <;>
  · constructor
    · simp +decide [read, Except.map, resolveMotors, keyIn, CALIBRATION_REQUIRED,
        insertKey, succAlways, dictLookup, retryTx_always_twenty,
        show assert_same_address ["sts3215"] "Goal_Position" = Except.ok () from rfl,
        show assert_same_address ["sts3215"] "Present_Position" = Except.ok () from rfl,
        show ctrlLookup "sts3215" "Goal_Position" = some (42, 2) from rfl,
        show ctrlLookup "sts3215" "Present_Position" = some (56, 2) from rfl]
    · simp +decide [write, Except.map, resolveMotors, keyIn, CALIBRATION_REQUIRED,
        insertKey, succAlways, dictLookup, zipStrict, ratParams, toPyInt, buildParams,
        convert_to_bytes, PyNum.val, PyNum.isInt,
        show assert_same_address ["sts3215"] "Goal_Position" = Except.ok () from rfl,
        show assert_same_address ["sts3215"] "Present_Position" = Except.ok () from rfl,
        show ctrlLookup "sts3215" "Goal_Position" = some (42, 2) from rfl,
        show ctrlLookup "sts3215" "Present_Position" = some (56, 2) from rfl]

/-- C4 witness: concrete instance of `uncalibrated_passthrough`. -/
theorem uncalibrated_passthrough_witness :
    (read { port := "p", motors := [("m1", ((1 : Nat), "sts3215"))], mock := false,
            calibration := none, is_connected := true, group_readers := [],
            group_writers := [] } succAlways (fun _ => 42) "Present_Position"
        (some ["m1"])).map ReadOut.values = .ok [((42 : Nat) : Rat)] ∧
    (write { port := "p", motors := [("m1", ((1 : Nat), "sts3215"))], mock := false,
             calibration := none, is_connected := true, group_readers := [],
             group_writers := [] } succAlways "Present_Position"
        (.list [.int 7]) (some ["m1"])).map WriteOut.values
        = .ok [((7 : Int) : Rat)] :=
  uncalibrated_passthrough "p" "m1" 1 (fun _ => 42) [] 7 "Present_Position" (by decide)

/-- C5. A motor calibrated in LINEAR mode: `apply_calibration` rescales the
raw value to the nominal percentage `(raw - start) / (end - start) * 100`
and raises `JointOutOfRangeError` carrying the motor name and that nominal
percentage exactly when the percentage is below `-10` or above `110`;
otherwise it returns the percentage. -/
theorem linear_tolerance (name : String) (id : Nat) (startp endp raw : Rat)
    (_h : startp < endp) :
    apply_calibration (linBus name id startp endp) [raw] (some [name]) =
      (if (raw - startp) / (endp - startp) * 100 < LOWER_BOUND_LINEAR
          ∨ (raw - startp) / (endp - startp) * 100 > UPPER_BOUND_LINEAR
       then .error (.jointOutOfRange name ((raw - startp) / (endp - startp) * 100))
       else .ok [(raw - startp) / (endp - startp) * 100]) := by
  simp +decide only [apply_calibration, linBus, applyList, applyOne, listIndex]
  by_cases hc : (raw - startp) / (endp - startp) * 100 < LOWER_BOUND_LINEAR
      ∨ (raw - startp) / (endp - startp) * 100 > UPPER_BOUND_LINEAR
  · simp [hc]
  · simp [hc]

/-- C5 witness: over the range `[0, 100]`, the nominal value `110.01` raises
`JointOutOfRangeError` naming the motor and the nominal percentage, and the
nominal value `0` is accepted. -/
theorem linear_tolerance_witness :
    apply_calibration (linBus "gripper" 6 0 100) [(11001 / 100 : Rat)]
        (some ["gripper"])
      = .error (.jointOutOfRange "gripper" (11001 / 100)) ∧
    apply_calibration (linBus "gripper" 6 0 100) [0] (some ["gripper"]) = .ok [0] := by
  constructor
  · have h := linear_tolerance "gripper" 6 0 100 (11001 / 100) (by norm_num)
    rw [h]
    norm_num [LOWER_BOUND_LINEAR, UPPER_BOUND_LINEAR]
  · have h := linear_tolerance "gripper" 6 0 100 0 (by norm_num)
    rw [h]
    norm_num [LOWER_BOUND_LINEAR, UPPER_BOUND_LINEAR]

/-- C6 counterexample. The claim says `convert_to_bytes` (mock false) fails
with a range error on a negative value and on a value exceeding
`2^(8*width) - 1`; in fact `-1` at width 1 encodes to `[255]` and `256` at
width 1 encodes to `[0]` — masked, with no error. -/
theorem convert_to_bytes_mask_counterexample :
    convert_to_bytes (-1) 1 false = .ok (.data [255]) ∧
    convert_to_bytes 256 1 false = .ok (.data [0]) :=
  ⟨rfl, rfl⟩

/-- C6 amended: for a width outside `{1, 2, 4}` the encoder raises
`NotImplementedError`; for widths in `{1, 2, 4}` it never fails — a negative
or oversized value is masked modulo `2^(8*width)` (the encoding depends only
on the value modulo `2^(8*width)`) and encoded little-endian. -/
theorem convert_to_bytes_amended (v : Int) (w : Nat) :
    (w ∉ ([1, 2, 4] : List Nat) → convert_to_bytes v w false = .error .notImplementedError) ∧
    (w ∈ ([1, 2, 4] : List Nat) →
      convert_to_bytes v w false = convert_to_bytes (v % 2 ^ (8 * w)) w false ∧
      ∃ bs, convert_to_bytes v w false = .ok (.data bs)) := by
  constructor
  · intro h
    simp only [List.mem_cons, List.mem_singleton, List.not_mem_nil, or_false, not_or] at h
    simp [convert_to_bytes, h.1, h.2.1, h.2.2]
  · intro h
    simp only [List.mem_cons, List.mem_singleton, List.not_mem_nil, or_false] at h
    rcases h with rfl | rfl | rfl
    · refine ⟨?_, ⟨_, rfl⟩⟩
      simp only [convert_to_bytes, SCS_LOBYTE, SCS_LOWORD]
      norm_num
    · refine ⟨?_, ⟨_, rfl⟩⟩
      simp only [convert_to_bytes, SCS_LOBYTE, SCS_HIBYTE, SCS_LOWORD]
      norm_num
    · refine ⟨?_, ⟨_, rfl⟩⟩
      simp only [convert_to_bytes, SCS_LOBYTE, SCS_HIBYTE, SCS_LOWORD, SCS_HIWORD]
      norm_num
      omega

/-- C6 witness: concrete instances of `convert_to_bytes_amended` — width 3
fails with `NotImplementedError`, and an oversized value at width 2 encodes
the same bytes as its masked remainder. -/
theorem convert_to_bytes_amended_witness :
    convert_to_bytes (-1) 3 false = .error .notImplementedError ∧
    convert_to_bytes 999999 2 false = convert_to_bytes (999999 % 2 ^ (8 * 2)) 2 false := by
  constructor
  · exact (convert_to_bytes_amended (-1) 3).1 (by decide)
  · exact ((convert_to_bytes_amended 999999 2).2 (by decide)).1

/-- C7 counterexample. The claim says every transaction method checks the
connection state first; `read_with_motor_ids` performs no such check: on a
bus with `is_connected = false` it happily performs the exchange and returns
the values. -/
theorem not_connected_counterexample :
    read_with_motor_ids demoBusDisconnected succAlways (fun _ => 42) ["sts3215"] [1]
      "Present_Position" 20 = (1, .ok [42]) := rfl

/-- C7 amended: on a bus with `is_connected = false`, `read` and `write` fail
with `DeviceNotConnectedError` regardless of the transport (i.e. before any
exchange or retry), while `read_with_motor_ids` and `write_with_motor_ids`
behave exactly as on a connected bus — they perform no connection check. -/
theorem connection_check_amended (s : Bus) (succ : Nat → Bool) (dev : Nat → Nat)
    (data_name : String) (motor_names? : Option (List String)) (vals : WriteInput)
    (mms : List String) (ids : List Nat) (ivals : List Int) (n : Nat)
    (h : s.is_connected = false) :
    read s succ dev data_name motor_names? = .error .deviceNotConnected ∧
    write s succ data_name vals motor_names? = .error .deviceNotConnected ∧
    read_with_motor_ids s succ dev mms ids data_name n
      = read_with_motor_ids { s with is_connected := true } succ dev mms ids data_name n ∧
    write_with_motor_ids s succ mms ids data_name ivals n
      = write_with_motor_ids { s with is_connected := true } succ mms ids data_name ivals n := by
  refine ⟨?_, ?_, rfl, rfl⟩
  · simp [read, h]
  · simp [write, h]

/-- C7 witness: concrete instance of `connection_check_amended`. -/
theorem connection_check_amended_witness :
    read demoBusDisconnected succAlways (fun _ => 0) "ID" (some ["m1"])
      = .error .deviceNotConnected :=
  (connection_check_amended demoBusDisconnected succAlways (fun _ => 0) "ID"
    (some ["m1"]) (.list []) [] [] [] 0 rfl).1

/-- C8. The claim says that writing the normalized scalar 50 to
`Goal_Position` on the bus whose motor "gripper" (id 6) is calibrated LINEAR
over `[0, 4095]` sends `round(50 / 100 * 4095) = round(2047.5) = 2048`
(nearest-integer rounding). The scalar path builds `[int(50)]`, so
`np.array` creates an int64 array, and `revert_calibration`'s assignment
stores `2047.5` into that integer array, truncating it to `2047` before
`np.round` runs: the program sends raw tick 2047 — little-endian bytes
`[255, 7]` — for motor id 6, not 2048. The second conjunct records that the
nearest-integer rounding of `2047.5 = 4095 / 2` named by the claim is indeed
2048, so the divergence is exactly the pre-round truncation. -/
theorem goal_position_linear_write_code_eval :
    write gripperBus succAlways "Goal_Position" (.scalar 50) none
      = .ok { bus := { gripperBus with group_writers := ["Goal_Position_gripper"] },
              values := [2047], params := [(6, .data [255, 7])], initGroup := true } ∧
    npRound (4095 / 2) = 2048 := by
  have hfl : ⌊(4095 : Rat) / 2⌋ = 2047 := by norm_num
  have hnp : npRound (4095 / 2) = 2048 := by rw [npRound, hfl]; norm_num
  have hpy : ((pyInt 50 : Int) : Rat) = 50 := by norm_num [pyInt]
  refine ⟨?_, hnp⟩
  norm_num +decide [write, hpy, gripper_revert_eval, resolveMotors, keyIn,
    CALIBRATION_REQUIRED, zipStrict, ratParams, toPyInt, buildParams, insertKey,
    succAlways, Bus.motor_names, PyNum.val, PyNum.isInt, List.all,
    show gripperBus.is_connected = true from rfl,
    show gripperBus.motors = [("gripper", (6, "sts3215"))] from rfl,
    show gripperBus.calibration.isSome = true from rfl,
    show gripperBus.group_readers = [] from rfl,
    show gripperBus.group_writers = [] from rfl,
    show gripperBus.mock = false from rfl,
    show dictLookup "gripper" [("gripper", ((6 : Nat), "sts3215"))] = some (6, "sts3215") from rfl,
    show assert_same_address ["sts3215"] "Goal_Position" = Except.ok () from rfl,
    show ctrlLookup "sts3215" "Goal_Position" = some (42, 2) from rfl,
    show get_group_sync_key "Goal_Position" ["gripper"] = "Goal_Position_gripper" from rfl,
    show convert_to_bytes 2047 2 false = .ok (.data [255, 7]) from rfl]

/-- C9. Invoking the destructor path on a bus whose `is_connected` flag is
false (never connected, or already disconnected) performs no operation and
raises no error. -/
theorem del_noop (s : Bus) (h : s.is_connected = false) : del s = .ok s := by
  simp [del, h]

/-- C9 witness: concrete instance of `del_noop` on a disconnected bus. -/
theorem del_noop_witness : del demoBusDisconnected = .ok demoBusDisconnected :=
  del_noop demoBusDisconnected rfl

/-- C10. Writing a single scalar value broadcasts it: `write` with a scalar
`v` behaves identically to `write` with the list holding `int(v)` once per
resolved motor name (`[int(values)] * len(motor_names)` in the source). -/
theorem scalar_broadcast (s : Bus) (succ : Nat → Bool) (data_name : String) (v : Rat)
    (motor_names? : Option (List String)) :
    write s succ data_name (.scalar v) motor_names? =
      write s succ data_name
        (.list (List.replicate (motor_names?.getD s.motor_names).length
          (.int (pyInt v))))
        motor_names? := rfl

end Feetech
